import Mathlib

/-!
GLShapeMath: the `CPL::Mesh` primitive builders and the construction-time upload.

A shallow embedding of `src/Mesh.cpp`.

* `float` values are taken from an arbitrary field `α` (exact arithmetic, no rounding);
  the library functions `cos` and `sin` are parameters of `CreateCircle`.  A division
  by zero yields `0` in a field where the machine yields NaN or an infinity; it only
  occurs for `segments = 0` or `radius = 0`, which no statement below relies on.
* `int` is `Int` with 32-bit two's complement wrap-around on `++i` and `i + 1`
  (`wrapInt32`; C++ leaves that overflow undefined, wrap-around is what the usual
  targets do), `unsigned int` is `Nat` reduced modulo `2^32` on conversion.
* The two `for` loops of `CreateCircle` are iterated with explicit fuel;
  `none` means that the fuel ran out before the loop condition became false.
* The rendering device is an explicit record of the binding state that
  `setupMesh` touches (`GLState`); every builder ends, as in the source, in the
  `Mesh` constructor and therefore threads that state.
-/

namespace CPL

/-! ## Data model -/

/-- Modelled from the spec: the `Vertex` record declared in `Mesh.hpp`, which is
not among the sources: a position (3 floats), a colour (3 floats) and a texture
coordinate (2 floats), constructed in that order. -/
structure Vertex (α : Type) where
  Position : α × α × α
  Color : α × α × α
  TexCoord : α × α

/-- Modelled from the spec: `sizeof(Vertex)`, eight contiguous 4-byte floats. -/
def sizeofVertex : Nat := 32

/-- Modelled from the spec: `offsetof(Vertex, Position)`. -/
def offsetofPosition : Nat := 0

/-- Modelled from the spec: `offsetof(Vertex, Color)`, the size of the position. -/
def offsetofColor : Nat := 12

/-- Modelled from the spec: `offsetof(Vertex, TexCoord)`, the size of position and colour. -/
def offsetofTexCoord : Nat := 24

/-- The value of `sizeof(unsigned int)`. -/
def sizeofUInt : Nat := 4

/-- One `glVertexAttribPointer` record: component count, stride, byte offset and
the buffer that was bound to `GL_ARRAY_BUFFER` when the call was made. -/
structure AttribPointer where
  size : Nat
  stride : Nat
  offset : Nat
  buffer : Nat
deriving DecidableEq

/-- The part of the device state that `Mesh` reads and writes.  Object names are
handed out by two counters (`name = count + 1`), so a generated name is never `0`;
`0` is the name that stands for "nothing bound". -/
structure GLState where
  /-- how many vertex-array names `glGenVertexArrays` has handed out -/
  vertexArrayCount : Nat
  /-- how many buffer names `glGenBuffers` has handed out -/
  bufferCount : Nat
  /-- the current vertex-array object -/
  vertexArrayBinding : Nat
  /-- the buffer bound to `GL_ARRAY_BUFFER` (context state) -/
  arrayBufferBinding : Nat
  /-- the buffer bound to `GL_ELEMENT_ARRAY_BUFFER`, a state of each vertex array -/
  elementArrayBinding : Nat → Nat
  /-- the size in bytes of the data store of each buffer -/
  bufferSize : Nat → Nat
  /-- the attribute pointers of each vertex array -/
  attribPointer : Nat → Nat → Option AttribPointer
  /-- the enabled attribute slots of each vertex array -/
  attribEnabled : Nat → Nat → Bool

/-- A device state with nothing generated, bound or uploaded. -/
def GLState.initial : GLState where
  vertexArrayCount := 0
  bufferCount := 0
  vertexArrayBinding := 0
  arrayBufferBinding := 0
  elementArrayBinding := fun _ => 0
  bufferSize := fun _ => 0
  attribPointer := fun _ _ => none
  attribEnabled := fun _ _ => false

/-- The two buffer targets used by `setupMesh`. -/
inductive BufferTarget where
  | GL_ARRAY_BUFFER
  | GL_ELEMENT_ARRAY_BUFFER
deriving DecidableEq

/-- The call `glGenVertexArrays(1, &name)`. -/
def glGenVertexArrays (gl : GLState) : Nat × GLState :=
  (gl.vertexArrayCount + 1, { gl with vertexArrayCount := gl.vertexArrayCount + 1 })

/-- The call `glGenBuffers(1, &name)`. -/
def glGenBuffers (gl : GLState) : Nat × GLState :=
  (gl.bufferCount + 1, { gl with bufferCount := gl.bufferCount + 1 })

/-- The call `glBindVertexArray(array)`. -/
def glBindVertexArray (array : Nat) (gl : GLState) : GLState :=
  { gl with vertexArrayBinding := array }

/-- The call `glBindBuffer(target, buffer)`: the array-buffer binding is context
state, the element-array binding belongs to the current vertex array. -/
def glBindBuffer (target : BufferTarget) (buffer : Nat) (gl : GLState) : GLState :=
  match target with
  | .GL_ARRAY_BUFFER => { gl with arrayBufferBinding := buffer }
  | .GL_ELEMENT_ARRAY_BUFFER =>
    { gl with elementArrayBinding := fun vao =>
        if vao = gl.vertexArrayBinding then buffer else gl.elementArrayBinding vao }

/-- The buffer currently bound to a target. -/
def boundBuffer (target : BufferTarget) (gl : GLState) : Nat :=
  match target with
  | .GL_ARRAY_BUFFER => gl.arrayBufferBinding
  | .GL_ELEMENT_ARRAY_BUFFER => gl.elementArrayBinding gl.vertexArrayBinding

/-- The call `glBufferData(target, size, data, GL_STATIC_DRAW)`: the data store of
the buffer bound to `target` gets `size` bytes. -/
def glBufferData (target : BufferTarget) (size : Nat) (gl : GLState) : GLState :=
  { gl with bufferSize := fun b =>
      if b = boundBuffer target gl then size else gl.bufferSize b }

/-- The call `glVertexAttribPointer(index, size, GL_FLOAT, GL_FALSE, stride, offset)`:
recorded in the current vertex array together with the array buffer bound now. -/
def glVertexAttribPointer (index size stride offset : Nat) (gl : GLState) : GLState :=
  { gl with attribPointer := fun vao i =>
      if vao = gl.vertexArrayBinding ∧ i = index then
        some ⟨size, stride, offset, gl.arrayBufferBinding⟩
      else gl.attribPointer vao i }

/-- The call `glEnableVertexAttribArray(index)` on the current vertex array. -/
def glEnableVertexAttribArray (index : Nat) (gl : GLState) : GLState :=
  { gl with attribEnabled := fun vao i =>
      if vao = gl.vertexArrayBinding ∧ i = index then true else gl.attribEnabled vao i }

/-- The class `Mesh`: the two sequences and the three device handles. -/
structure Mesh (α : Type) where
  vertices : List (Vertex α)
  indices : List Nat
  VAO : Nat
  VBO : Nat
  EBO : Nat

/-- The method `Mesh::setupMesh`, run on the sequences the constructor stored; returns the
three handles and the device state it leaves. -/
def setupMesh {α : Type} (vertices : List (Vertex α)) (indices : List Nat) (gl : GLState) :
    (Nat × Nat × Nat) × GLState :=
  let (VAO, gl) := glGenVertexArrays gl
  let (VBO, gl) := glGenBuffers gl
  let (EBO, gl) := glGenBuffers gl
  let gl := glBindVertexArray VAO gl
  let gl := glBindBuffer .GL_ARRAY_BUFFER VBO gl
  let gl := glBufferData .GL_ARRAY_BUFFER (vertices.length * sizeofVertex) gl
  let gl := glBindBuffer .GL_ELEMENT_ARRAY_BUFFER EBO gl
  let gl := glBufferData .GL_ELEMENT_ARRAY_BUFFER (indices.length * sizeofUInt) gl
  -- Position
  let gl := glVertexAttribPointer 0 3 sizeofVertex offsetofPosition gl
  let gl := glEnableVertexAttribArray 0 gl
  -- Color
  let gl := glVertexAttribPointer 1 3 sizeofVertex offsetofColor gl
  let gl := glEnableVertexAttribArray 1 gl
  -- TexCoord
  let gl := glVertexAttribPointer 2 2 sizeofVertex offsetofTexCoord gl
  let gl := glEnableVertexAttribArray 2 gl
  let gl := glBindVertexArray 0 gl
  ((VAO, VBO, EBO), gl)

/-- The constructor `Mesh::Mesh(vertices, indices)`: stores both sequences, then
runs `setupMesh`. -/
def Mesh.new {α : Type} (vertices : List (Vertex α)) (indices : List Nat) (gl : GLState) :
    Mesh α × GLState :=
  let (h, gl) := setupMesh vertices indices gl
  ({ vertices := vertices, indices := indices, VAO := h.1, VBO := h.2.1, EBO := h.2.2 }, gl)

/-- The method `Mesh::Draw`: bind the vertex array, draw (no binding changes), unbind. -/
def Mesh.Draw {α : Type} (m : Mesh α) (gl : GLState) : GLState :=
  let gl := glBindVertexArray m.VAO gl
  glBindVertexArray 0 gl

/-! ## Builders -/

section Builders

variable {α : Type} [Field α]

/-- The builder `Mesh::CreateTriangle`. -/
def CreateTriangle (gl : GLState) : Mesh α × GLState :=
  let verts : List (Vertex α) := [
    ⟨(0, 1/2, 0), (1, 0, 0), (1/2, 1)⟩,
    ⟨(1/2, -(1/2), 0), (0, 1, 0), (1, 0)⟩,
    ⟨(-(1/2), -(1/2), 0), (0, 0, 1), (0, 0)⟩]
  let inds : List Nat := [0, 1, 2]
  Mesh.new verts inds gl

/-- The builder `Mesh::CreateQuad`. -/
def CreateQuad (width height : α) (gl : GLState) : Mesh α × GLState :=
  let hw := width * (1/2)
  let hh := height * (1/2)
  let verts : List (Vertex α) := [
    ⟨(hw, hh, 0), (1, 0, 0), (1, 1)⟩,     -- top-right
    ⟨(hw, -hh, 0), (0, 1, 0), (1, 0)⟩,    -- bottom-right
    ⟨(-hw, -hh, 0), (0, 0, 1), (0, 0)⟩,   -- bottom-left
    ⟨(-hw, hh, 0), (1, 1, 0), (0, 1)⟩]    -- top-left
  let inds : List Nat := [0, 1, 3, 1, 2, 3]
  Mesh.new verts inds gl

/-- The increment of an `int`, with two's complement wrap-around at `2^31`. -/
def wrapInt32 (z : Int) : Int := (z + 2147483648) % 4294967296 - 2147483648

/-- The conversion of an `int` to `unsigned int`. -/
def toUInt32 (z : Int) : Nat := (z % 4294967296).toNat

/-- The body of the vertex loop of `CreateCircle` at counter `i`: the rim vertex. -/
def rimVertex (cos sin : α → α) (radius : α) (segments i : Int) : Vertex α :=
  let angle := 2 * (31415926 / 10000000) * (i : α) / (segments : α)
  let x := radius * cos angle
  let y := radius * sin angle
  let u := x / (radius * 2) + 1/2
  let v := y / (radius * 2) + 1/2
  ⟨(x, y, 0), (1, 1, 0), (u, v)⟩

/-- The loop `for (int i = ..; i <= segments; ++i) verts.push_back(..)` from counter `i` on. -/
def rimLoop (cos sin : α → α) (radius : α) (segments : Int) :
    Nat → Int → List (Vertex α) → Option (List (Vertex α))
  | 0, _, _ => none
  | fuel + 1, i, verts =>
    if i ≤ segments then
      rimLoop cos sin radius segments fuel (wrapInt32 (i + 1))
        (verts ++ [rimVertex cos sin radius segments i])
    else some verts

/-- The loop `for (int i = ..; i <= segments; ++i)` that pushes `0, i, i + 1`. -/
def fanLoop (segments : Int) : Nat → Int → List Nat → Option (List Nat)
  | 0, _, _ => none
  | fuel + 1, i, inds =>
    if i ≤ segments then
      fanLoop segments fuel (wrapInt32 (i + 1))
        (inds ++ [0, toUInt32 i, toUInt32 (wrapInt32 (i + 1))])
    else some inds

/-- The builder `Mesh::CreateCircle`; `fuel` bounds the iterations of each loop. -/
def CreateCircle (cos sin : α → α) (radius : α) (segments : Int) (fuel : Nat)
    (gl : GLState) : Option (Mesh α × GLState) :=
  let verts : List (Vertex α) := [⟨(0, 0, 0), (1, 0, 0), (1/2, 1/2)⟩]
  match rimLoop cos sin radius segments fuel 0 verts with
  | none => none
  | some verts =>
    match fanLoop segments fuel 1 [] with
    | none => none
    | some inds => some (Mesh.new verts inds gl)

/-- The builder `Mesh::CreateCube`. -/
def CreateCube (size : α) (gl : GLState) : Mesh α × GLState :=
  let h := size * (1/2)
  let verts : List (Vertex α) := [
    -- Front face
    ⟨(-h, -h, h), (1, 0, 0), (0, 0)⟩,
    ⟨(h, -h, h), (0, 1, 0), (1, 0)⟩,
    ⟨(h, h, h), (0, 0, 1), (1, 1)⟩,
    ⟨(-h, h, h), (1, 1, 0), (0, 1)⟩,
    -- Back face
    ⟨(-h, -h, -h), (1, 0, 1), (1, 0)⟩,
    ⟨(h, -h, -h), (0, 1, 1), (0, 0)⟩,
    ⟨(h, h, -h), (1, 1, 1), (0, 1)⟩,
    ⟨(-h, h, -h), (1/2, 1/2, 1/2), (1, 1)⟩]
  let inds : List Nat := [
    0, 1, 2,  2, 3, 0,   -- Front
    1, 5, 6,  6, 2, 1,   -- Right
    5, 4, 7,  7, 6, 5,   -- Back
    4, 0, 3,  3, 7, 4,   -- Left
    3, 2, 6,  6, 7, 3,   -- Top
    4, 5, 1,  1, 0, 4]   -- Bottom
  Mesh.new verts inds gl

/-- The builder `Mesh::CreatePyramid`. -/
def CreatePyramid (base height : α) (gl : GLState) : Mesh α × GLState :=
  let h := base * (1/2)
  let verts : List (Vertex α) := [
    -- Base (square)
    ⟨(-h, 0, -h), (1, 0, 0), (0, 0)⟩,
    ⟨(h, 0, -h), (0, 1, 0), (1, 0)⟩,
    ⟨(h, 0, h), (0, 0, 1), (1, 1)⟩,
    ⟨(-h, 0, h), (1, 1, 0), (0, 1)⟩,
    -- Tip
    ⟨(0, height, 0), (1, 1, 1), (1/2, 1/2)⟩]
  let inds : List Nat := [
    0, 1, 2,  2, 3, 0,                        -- Base
    0, 1, 4,  1, 2, 4,  2, 3, 4,  3, 0, 4]    -- Sides (triangles)
  Mesh.new verts inds gl

end Builders

/-! ## Reading a mesh -/

section Geometry

variable {α : Type}

/-- The consecutive index triples of an index list, as `GL_TRIANGLES` reads them. -/
def triangles : List Nat → List (Nat × Nat × Nat)
  | a :: b :: c :: rest => (a, b, c) :: triangles rest
  | _ => []

/-- The position of the vertex an index refers to, when the index is in range. -/
def Mesh.position? (m : Mesh α) (i : Nat) : Option (α × α × α) :=
  (m.vertices[i]?).map Vertex.Position

/-- The texture coordinate of the vertex an index refers to, when the index is in range. -/
def Mesh.texCoord? (m : Mesh α) (i : Nat) : Option (α × α) :=
  (m.vertices[i]?).map Vertex.TexCoord

/-- The index list is a whole number of triangles and refers to existing vertices only. -/
def Mesh.validIndices (m : Mesh α) : Prop :=
  m.indices.length % 3 = 0 ∧ ∀ i ∈ m.indices, i < m.vertices.length

/-- The six indices of face number `k` of a cube: indices `6k .. 6k+5`. -/
def faceIndices (m : Mesh α) (k : Nat) : List Nat :=
  (m.indices.drop (6 * k)).take 6

/-- The texture coordinates of the vertices that face number `k` refers to. -/
def faceTexCoords (m : Mesh α) (k : Nat) : List (α × α) :=
  (faceIndices m k).filterMap m.texCoord?

variable [Field α]

/-- The difference `p - q` of two points. -/
def sub3 (p q : α × α × α) : α × α × α :=
  (p.1 - q.1, p.2.1 - q.2.1, p.2.2 - q.2.2)

/-- The cross product. -/
def cross (u v : α × α × α) : α × α × α :=
  (u.2.1 * v.2.2 - u.2.2 * v.2.1, u.2.2 * v.1 - u.1 * v.2.2, u.1 * v.2.1 - u.2.1 * v.1)

/-- The dot product. -/
def dot (u v : α × α × α) : α :=
  u.1 * v.1 + u.2.1 * v.2.1 + u.2.2 * v.2.2

/-- The normal `(b - a) × (c - a)` of the triangle `(a, b, c)`. -/
def normal (a b c : α × α × α) : α × α × α :=
  cross (sub3 b a) (sub3 c a)

/-- The centroid of the triangle `(a, b, c)`. -/
def centroid (a b c : α × α × α) : α × α × α :=
  ((a.1 + b.1 + c.1) / 3, (a.2.1 + b.2.1 + c.2.1) / 3, (a.2.2 + b.2.2 + c.2.2) / 3)

/-- The signed area `(xb-xa)*(yc-ya) - (xc-xa)*(yb-ya)` of a triangle in the XY plane
(twice the oriented area; positive for counter-clockwise order seen from `+Z`). -/
def signedArea (a b c : α × α × α) : α :=
  (b.1 - a.1) * (c.2.1 - a.2.1) - (c.1 - a.1) * (b.2.1 - a.2.1)

/-- The squared Euclidean distance of two points. -/
def distSq (p q : α × α × α) : α :=
  (p.1 - q.1) ^ 2 + (p.2.1 - q.2.1) ^ 2 + (p.2.2 - q.2.2) ^ 2

/-- The point `(x, y)` of the XY plane lies in the closed triangle `(a, b, c)`: it is a
convex combination of the three corners. -/
def InTriangle [LE α] (a b c : α × α × α) (x y : α) : Prop :=
  ∃ s t u : α, 0 ≤ s ∧ 0 ≤ t ∧ 0 ≤ u ∧ s + t + u = 1 ∧
    x = s * a.1 + t * b.1 + u * c.1 ∧ y = s * a.2.1 + t * b.2.1 + u * c.2.1

/-- The point `(x, y)` of the XY plane lies on the closed segment from `a` to `b`. -/
def OnSegment [LE α] (a b : α × α × α) (x y : α) : Prop :=
  ∃ t : α, 0 ≤ t ∧ t ≤ 1 ∧ x = (1 - t) * a.1 + t * b.1 ∧ y = (1 - t) * a.2.1 + t * b.2.1

/-- The three corner positions of an index triple, when all three indices are in range. -/
def Mesh.corners? (m : Mesh α) (t : Nat × Nat × Nat) :
    Option ((α × α × α) × (α × α × α) × (α × α × α)) :=
  match m.position? t.1, m.position? t.2.1, m.position? t.2.2 with
  | some a, some b, some c => some (a, b, c)
  | _, _, _ => none

/-- Every triangle of the mesh is counter-clockwise in the XY plane, seen from `+Z`. -/
def Mesh.windsCounterClockwise [LT α] (m : Mesh α) : Prop :=
  ∀ t ∈ triangles m.indices, ∃ a b c, m.corners? t = some (a, b, c) ∧ 0 < signedArea a b c

/-- Every triangle of the mesh is clockwise in the XY plane, seen from `+Z`. -/
def Mesh.windsClockwise [LT α] (m : Mesh α) : Prop :=
  ∀ t ∈ triangles m.indices, ∃ a b c, m.corners? t = some (a, b, c) ∧ signedArea a b c < 0

/-- The point `(x, y)` lies in the rectangle `[-w/2, w/2] x [-h/2, h/2]`. -/
def InRect [LE α] (w h x y : α) : Prop :=
  -(w / 2) ≤ x ∧ x ≤ w / 2 ∧ -(h / 2) ≤ y ∧ y ≤ h / 2

/-- The normal `(b - a) × (c - a)` of the triangle an index triple `(a, b, c)` refers to. -/
def Mesh.triangleNormal? (m : Mesh α) (t : Nat × Nat × Nat) : Option (α × α × α) :=
  (m.corners? t).map (fun p => normal p.1 p.2.1 p.2.2)

/-- The dot product of a triangle's normal with the vector from the point `inside` to the
triangle's centroid: positive when the triangle winds outward as seen from `inside`. -/
def Mesh.outwardness? (m : Mesh α) (inside : α × α × α) (t : Nat × Nat × Nat) : Option α :=
  (m.corners? t).map (fun p =>
    dot (normal p.1 p.2.1 p.2.2) (sub3 (centroid p.1 p.2.1 p.2.2) inside))

/-- The offsets `a · axis`, `b · axis`, `c · axis` of the three corners of an index triple
along an axis; all three equal `d` exactly when the triangle lies in the plane
`p · axis = d`. -/
def Mesh.faceOffsets? (m : Mesh α) (axis : α × α × α) (t : Nat × Nat × Nat) :
    Option (α × α × α) :=
  (m.corners? t).map (fun p => (dot p.1 axis, dot p.2.1 axis, dot p.2.2 axis))

/-- The texture coordinates used by face number `k` are exactly the four corners of the
unit UV square. -/
def Mesh.faceHasAllUVCorners (m : Mesh α) (k : Nat) : Prop :=
  ∀ uv : α × α, uv ∈ faceTexCoords m k ↔ uv ∈ [((0 : α), (0 : α)), (1, 0), (1, 1), (0, 1)]

/-- The eight sign combinations of three coordinates. -/
def signCombinations : List (Int × Int × Int) :=
  [(1, 1, 1), (1, 1, -1), (1, -1, 1), (1, -1, -1),
   (-1, 1, 1), (-1, 1, -1), (-1, -1, 1), (-1, -1, -1)]

/-- The point whose coordinates are `±half` with the signs `σ`. -/
def signedCorner (half : α) (σ : Int × Int × Int) : α × α × α :=
  ((σ.1 : α) * half, (σ.2.1 : α) * half, (σ.2.2 : α) * half)

/-- The multiple `c * v` of a vector. -/
def smul3 (c : α) (v : α × α × α) : α × α × α :=
  (c * v.1, c * v.2.1, c * v.2.2)

/-- The outward axis of cube face number `k`, in the order in which `CreateCube` lists its
faces: front `+Z`, right `+X`, back `-Z`, left `-X`, top `+Y`, bottom `-Y`. -/
def faceAxis (k : Nat) : α × α × α :=
  match k with
  | 0 => (0, 0, 1)
  | 1 => (1, 0, 0)
  | 2 => (0, 0, -1)
  | 3 => (-1, 0, 0)
  | 4 => (0, 1, 0)
  | _ => (0, -1, 0)

end Geometry

/-! ## The construction-time upload -/

@[simp]
theorem Mesh.new_vertices {α : Type} (vs : List (Vertex α)) (is : List Nat)
    (gl : GLState) : (Mesh.new vs is gl).1.vertices = vs := rfl

@[simp]
theorem Mesh.new_indices {α : Type} (vs : List (Vertex α)) (is : List Nat)
    (gl : GLState) : (Mesh.new vs is gl).1.indices = is := rfl

/-! ## The loops of `CreateCircle` -/

theorem wrapInt32_of_inRange (z : Int) (h1 : -2147483648 ≤ z) (h2 : z < 2147483648) :
    wrapInt32 z = z := by
  unfold wrapInt32; omega

theorem wrapInt32_inRange (z : Int) :
    -2147483648 ≤ wrapInt32 z ∧ wrapInt32 z < 2147483648 := by
  unfold wrapInt32; omega

theorem toUInt32_natCast (a : Nat) (h : a < 4294967296) : toUInt32 (a : Int) = a := by
  unfold toUInt32; omega

theorem flatMap_range_succ {β : Type} (g : Nat → List β) (k : Nat) :
    (List.range (k + 1)).flatMap g = g 0 ++ (List.range k).flatMap (fun j => g (j + 1)) := by
  simp only [List.range_succ_eq_map, List.flatMap_cons, List.flatMap_map]

section Loops

variable {α : Type} [Field α]

/-- With `k` iterations left before the counter passes `segments`, and more fuel than
that, the vertex loop ends and has appended the rim vertices of the next `k` counters. -/
theorem rimLoop_eq (cos sin : α → α) (radius : α) (segments : Int)
    (hs : segments < 2147483647) :
    ∀ (k fuel : Nat) (i : Int) (verts : List (Vertex α)),
      0 ≤ i → i + k = segments + 1 → k < fuel →
      rimLoop cos sin radius segments fuel i verts =
        some (verts ++ (List.range k).map
          (fun (j : Nat) => rimVertex cos sin radius segments (i + (j : Int)))) := by
  intro k
  induction k with
  | zero =>
    intro fuel i verts _ hik hf
    obtain ⟨f, rfl⟩ : ∃ f, fuel = f + 1 := ⟨fuel - 1, by omega⟩
    have : ¬ i ≤ segments := by omega
    simp [rimLoop, this]
  | succ k ih =>
    intro fuel i verts hi hik hf
    obtain ⟨f, rfl⟩ : ∃ f, fuel = f + 1 := ⟨fuel - 1, by omega⟩
    have hle : i ≤ segments := by omega
    have hw : wrapInt32 (i + 1) = i + 1 := wrapInt32_of_inRange _ (by omega) (by omega)
    rw [rimLoop, if_pos hle, hw, ih f (i + 1) _ (by omega) (by push_cast at hik ⊢; omega)
      (by omega)]
    simp only [List.range_succ_eq_map, List.map_cons, List.map_map, List.append_assoc,
      List.singleton_append, Nat.cast_zero, add_zero]
    congr 3
    apply List.map_congr_left
    intro j _
    simp only [Function.comp, Nat.succ_eq_add_one, Nat.cast_add, Nat.cast_one]
    congr 1
    ring

/-- With `k` iterations left and more fuel than that, the index loop ends and has appended
the triangles `(0, a + j, a + j + 1)` for the next `k` counters. -/
theorem fanLoop_eq (segments : Int) (hs : segments < 2147483647) :
    ∀ (k fuel a : Nat) (inds : List Nat),
      (a : Int) + k = segments + 1 → k < fuel →
      fanLoop segments fuel a inds =
        some (inds ++ (List.range k).flatMap (fun j => [0, a + j, a + j + 1])) := by
  intro k
  induction k with
  | zero =>
    intro fuel a inds hik hf
    obtain ⟨f, rfl⟩ : ∃ f, fuel = f + 1 := ⟨fuel - 1, by omega⟩
    have : ¬ (a : Int) ≤ segments := by omega
    simp [fanLoop, this]
  | succ k ih =>
    intro fuel a inds hik hf
    obtain ⟨f, rfl⟩ : ∃ f, fuel = f + 1 := ⟨fuel - 1, by omega⟩
    have hle : (a : Int) ≤ segments := by omega
    have hw : wrapInt32 ((a : Int) + 1) = ((a + 1 : Nat) : Int) := by
      rw [wrapInt32_of_inRange _ (by omega) (by omega)]; push_cast; rfl
    have h1 : toUInt32 (a : Int) = a := toUInt32_natCast a (by omega)
    have h2 : toUInt32 ((a + 1 : Nat) : Int) = a + 1 := toUInt32_natCast (a + 1) (by omega)
    rw [fanLoop, if_pos hle, hw, h1, h2, ih f (a + 1) _ (by push_cast at hik ⊢; omega)
      (by omega)]
    rw [flatMap_range_succ]
    simp only [List.append_assoc, Nat.add_zero, Nat.add_comm, Nat.add_left_comm, Nat.add_assoc]

/-- When `segments` is `INT_MAX` the condition `i <= segments` holds for every `int`, so
the vertex loop has no exit: it runs out of any amount of fuel. -/
theorem rimLoop_intMax (cos sin : α → α) (radius : α) :
    ∀ (fuel : Nat) (i : Int) (verts : List (Vertex α)),
      -2147483648 ≤ i → i < 2147483648 →
      rimLoop cos sin radius 2147483647 fuel i verts = none := by
  intro fuel
  induction fuel with
  | zero => intro i verts _ _; rfl
  | succ f ih =>
    intro i verts h1 h2
    have hle : i ≤ 2147483647 := by omega
    rw [rimLoop, if_pos hle]
    exact ih _ _ (wrapInt32_inRange _).1 (wrapInt32_inRange _).2

/-- The index loop has no exit either when `segments` is `INT_MAX`. -/
theorem fanLoop_intMax :
    ∀ (fuel : Nat) (i : Int) (inds : List Nat),
      -2147483648 ≤ i → i < 2147483648 →
      fanLoop 2147483647 fuel i inds = none := by
  intro fuel
  induction fuel with
  | zero => intro i inds _ _; rfl
  | succ f ih =>
    intro i inds h1 h2
    have hle : i ≤ 2147483647 := by omega
    rw [fanLoop, if_pos hle]
    exact ih _ _ (wrapInt32_inRange _).1 (wrapInt32_inRange _).2

/-- The closed form of `CreateCircle` for a segment count below `INT_MAX`: the centre,
the rim vertices of the counters `0..n`, and the fan `(0, j+1, j+2)` for `j < n`. -/
theorem CreateCircle_eq (cos sin : α → α) (radius : α) (n fuel : Nat) (gl : GLState)
    (hn : n < 2147483647) (hf : n + 2 ≤ fuel) :
    CreateCircle cos sin radius (n : Int) fuel gl =
      some (Mesh.new
        ((⟨(0, 0, 0), (1, 0, 0), (1/2, 1/2)⟩ : Vertex α) ::
          (List.range (n + 1)).map (fun (j : Nat) => rimVertex cos sin radius (n : Int) (j : Int)))
        ((List.range n).flatMap (fun j => [0, j + 1, j + 2])) gl) := by
  have hr := rimLoop_eq cos sin radius (n : Int) (by omega) (n + 1) fuel 0
    [⟨(0, 0, 0), (1, 0, 0), (1/2, 1/2)⟩] (le_refl 0) (by push_cast; ring) (by omega)
  have hfan := fanLoop_eq (n : Int) (by omega) n fuel 1 [] (by push_cast; ring) (by omega)
  simp only [Nat.cast_one] at hfan
  have hfun : (fun j : Nat => [0, 1 + j, 1 + j + 1]) = (fun j : Nat => [0, j + 1, j + 2]) := by
    funext j
    rw [Nat.add_comm 1 j]
  simp only [CreateCircle, hr, hfan, hfun, zero_add, List.singleton_append, List.nil_append]

end Loops

theorem triangles_fan (n a : Nat) :
    triangles ((List.range n).flatMap (fun j => [0, j + a, j + a + 1])) =
      (List.range n).map (fun j => (0, j + a, j + a + 1)) := by
  induction n generalizing a with
  | zero => rfl
  | succ n ih =>
    rw [flatMap_range_succ, List.range_succ_eq_map, List.map_cons, List.map_map]
    have hfun : (fun j : Nat => [0, j + 1 + a, j + 1 + a + 1]) =
        (fun j : Nat => [0, j + (a + 1), j + (a + 1) + 1]) := by
      funext j
      rw [Nat.add_right_comm j 1 a, Nat.add_assoc j a 1]
    have hmap : ((fun j : Nat => (0, j + a, j + a + 1)) ∘ Nat.succ) =
        (fun j : Nat => (0, j + (a + 1), j + (a + 1) + 1)) := by
      funext j
      simp only [Function.comp, Nat.succ_eq_add_one]
      rw [Nat.add_right_comm j 1 a, Nat.add_assoc j a 1]
    rw [hfun, hmap, ← ih (a + 1)]
    rfl

theorem length_flatMap_triples {β : Type} (n : Nat) :
    ∀ g : Nat → List β, (∀ j, (g j).length = 3) →
      ((List.range n).flatMap g).length = 3 * n := by
  induction n with
  | zero => intro g _; rfl
  | succ n ih =>
    intro g hg
    rw [flatMap_range_succ, List.length_append, hg, ih _ (fun j => hg (j + 1))]
    omega

/-! ## The rectangle of `CreateQuad` -/

section Quad
variable {α : Type} [LinearOrderedField α]

theorem quad_positions (w h : α) (gl : GLState) :
    (CreateQuad w h gl).1.vertices.map Vertex.Position =
      [(w / 2, h / 2, 0), (w / 2, -(h / 2), 0), (-(w / 2), -(h / 2), 0), (-(w / 2), h / 2, 0)] := by
  simp [CreateQuad, div_eq_mul_inv]

theorem quad_position? (w h : α) (gl : GLState) :
    (CreateQuad w h gl).1.position? 0 = some (w / 2, h / 2, 0) ∧
    (CreateQuad w h gl).1.position? 1 = some (w / 2, -(h / 2), 0) ∧
    (CreateQuad w h gl).1.position? 2 = some (-(w / 2), -(h / 2), 0) ∧
    (CreateQuad w h gl).1.position? 3 = some (-(w / 2), h / 2, 0) := by
  simp [CreateQuad, Mesh.position?, div_eq_mul_inv]

/-- The triangle `(v0, v1, v3)` of a rectangle with half-extents `a`, `b` lies in it. -/
theorem inTriangle_upper_subset (a b x y : α) (ha : 0 < a) (hb : 0 < b)
    (hin : InTriangle (a, b, (0 : α)) (a, -b, 0) (-a, b, 0) x y) :
    -a ≤ x ∧ x ≤ a ∧ -b ≤ y ∧ y ≤ b := by
  obtain ⟨s, t, u, hs, ht, hu, hsum, hx, hy⟩ := hin
  simp only at hx hy
  have e1 : x = (s + t - u) * a := by rw [hx]; ring
  have e2 : y = (s - t + u) * b := by rw [hy]; ring
  refine ⟨?_, ?_, ?_, ?_⟩
  · rw [e1]; nlinarith
  · rw [e1]; nlinarith
  · rw [e2]; nlinarith
  · rw [e2]; nlinarith

/-- The triangle `(v1, v2, v3)` of a rectangle with half-extents `a`, `b` lies in it. -/
theorem inTriangle_lower_subset (a b x y : α) (ha : 0 < a) (hb : 0 < b)
    (hin : InTriangle (a, -b, (0 : α)) (-a, -b, 0) (-a, b, 0) x y) :
    -a ≤ x ∧ x ≤ a ∧ -b ≤ y ∧ y ≤ b := by
  obtain ⟨s, t, u, hs, ht, hu, hsum, hx, hy⟩ := hin
  simp only at hx hy
  have e1 : x = (s - t - u) * a := by rw [hx]; ring
  have e2 : y = (-s - t + u) * b := by rw [hy]; ring
  refine ⟨?_, ?_, ?_, ?_⟩
  · rw [e1]; nlinarith
  · rw [e1]; nlinarith
  · rw [e2]; nlinarith
  · rw [e2]; nlinarith

/-- A point of both triangles lies on the diagonal `v1 v3`. -/
theorem inTriangle_both_onSegment (a b x y : α) (ha : 0 < a) (hb : 0 < b)
    (h1 : InTriangle (a, b, (0 : α)) (a, -b, 0) (-a, b, 0) x y)
    (h2 : InTriangle (a, -b, (0 : α)) (-a, -b, 0) (-a, b, 0) x y) :
    OnSegment (a, -b, (0 : α)) (-a, b, 0) x y := by
  obtain ⟨s, t, u, hs, ht, hu, hsum, hx, hy⟩ := h1
  obtain ⟨s', t', u', hs', ht', hu', hsum', hx', hy'⟩ := h2
  simp only at hx hy hx' hy'
  have hab : 0 < a * b := mul_pos ha hb
  have key : a * b * (s + t') = 0 := by
    linear_combination (1 / 2 : α) * (b * hx' + a * hy' - b * hx - a * hy)
  have hst : s + t' = 0 := by
    rcases mul_eq_zero.mp key with h | h
    · exact absurd h (ne_of_gt hab)
    · exact h
  have hs0 : s = 0 := by linarith
  refine ⟨u, hu, by linarith, ?_, ?_⟩
  · simp only
    rw [hx, hs0]
    have : t = 1 - u := by linarith
    rw [this]; ring
  · simp only
    rw [hy, hs0]
    have : t = 1 - u := by linarith
    rw [this]; ring

/-- Every point of the rectangle lies in one of the two triangles. -/
theorem rect_subset_triangles (a b x y : α) (ha : 0 < a) (hb : 0 < b)
    (hx1 : -a ≤ x) (hx2 : x ≤ a) (hy1 : -b ≤ y) (hy2 : y ≤ b) :
    InTriangle (a, b, (0 : α)) (a, -b, 0) (-a, b, 0) x y ∨
      InTriangle (a, -b, (0 : α)) (-a, -b, 0) (-a, b, 0) x y := by
  have ha' : a ≠ 0 := ne_of_gt ha
  have hb' : b ≠ 0 := ne_of_gt hb
  have hxa1 : x / a ≤ 1 := (div_le_one ha).mpr hx2
  have hyb1 : y / b ≤ 1 := (div_le_one hb).mpr hy2
  have hxa2 : -1 ≤ x / a := by rw [le_div_iff₀ ha]; linarith
  have hyb2 : -1 ≤ y / b := by rw [le_div_iff₀ hb]; linarith
  have ex : x / a * a = x := div_mul_cancel₀ x ha'
  have ey : y / b * b = y := div_mul_cancel₀ y hb'
  rcases le_total 0 (x / a + y / b) with hpos | hneg
  · left
    refine ⟨(x / a + y / b) / 2, (1 - y / b) / 2, (1 - x / a) / 2, by linarith, by linarith,
      by linarith, by ring, ?_, ?_⟩
    · simp only
      linear_combination -ex
    · simp only
      linear_combination -ey
  · right
    refine ⟨(x / a + 1) / 2, -(x / a + y / b) / 2, (y / b + 1) / 2, by linarith, by linarith,
      by linarith, by ring, ?_, ?_⟩
    · simp only
      linear_combination -ex
    · simp only
      linear_combination -ey

end Quad

/-! ## C1: every builder emits whole triangles over existing vertices -/

section Claims

variable {α : Type} [Field α]

/-- C1. For each of the five builders the index list has a length that is a multiple of 3
and every index is below the number of vertices; for `CreateCircle` this is for every
segment count `n` with `1 ≤ n < 2^31 - 1`, where the builder returns once the fuel covers
its `n + 2` loop tests. -/
theorem builders_validIndices (cos sin : α → α) (gl : GLState) (n : Int) (fuel : Nat)
    (h1 : 1 ≤ n) (h2 : n < 2 ^ 31 - 1) (hf : n.toNat + 2 ≤ fuel) :
    (CreateTriangle gl : Mesh α × GLState).1.validIndices ∧
    (∀ w h : α, (CreateQuad w h gl).1.validIndices) ∧
    (∀ r : α, ∃ m gl', CreateCircle cos sin r n fuel gl = some (m, gl') ∧ m.validIndices) ∧
    (∀ s : α, (CreateCube s gl).1.validIndices) ∧
    (∀ b h : α, (CreatePyramid b h gl).1.validIndices) := by
  refine ⟨?_, ?_, ?_, ?_, ?_⟩
  · simp [CreateTriangle, Mesh.validIndices]
  · intro w h
    simp [CreateQuad, Mesh.validIndices]
  · intro r
    obtain ⟨k, rfl⟩ := Int.eq_ofNat_of_zero_le (by omega : 0 ≤ n)
    have hk : k < 2147483647 := by norm_num at h2; omega
    have h := CreateCircle_eq cos sin r k fuel gl hk (by simpa using hf)
    generalize hm : Mesh.new _ _ gl = mesh at h
    have hv := congrArg (fun p => p.1.vertices) hm
    have hi := congrArg (fun p => p.1.indices) hm
    simp only [Mesh.new_vertices, Mesh.new_indices] at hv hi
    refine ⟨mesh.1, mesh.2, h, ?_, ?_⟩
    · rw [← hi, length_flatMap_triples k (fun j => [0, j + 1, j + 2]) (fun _ => rfl)]
      omega
    · rw [← hi, ← hv]
      intro i hi
      simp only [Mesh.new_indices, List.mem_flatMap, List.mem_range] at hi
      obtain ⟨j, hj, hij⟩ := hi
      simp only [Mesh.new_vertices, List.length_cons, List.length_map, List.length_range]
      simp only [List.mem_cons, List.mem_singleton, List.not_mem_nil, or_false] at hij
      omega
  · intro s
    simp [CreateCube, Mesh.validIndices]
  · intro b h
    simp [CreatePyramid, Mesh.validIndices]

/-- C1 at a concrete circle: radius 1 with 3 segments and fuel 5 over the reals. -/
theorem builders_validIndices_witness :
    ∃ m gl', CreateCircle Real.cos Real.sin (1 : ℝ) 3 5 GLState.initial = some (m, gl') ∧
      m.validIndices :=
  (builders_validIndices Real.cos Real.sin GLState.initial 3 5
    (by norm_num) (by norm_num) (by decide)).2.2.1 1

/-! ## C2: the shape of the circle fan -/

/-- C2 as stated fails at the segment count `n = 2^31 - 1`: the loop test
`i <= segments` can never fail there, so no amount of fuel yields a mesh. -/
theorem CreateCircle_intMax_no_mesh :
    ¬ ∃ (fuel : Nat) (m : Mesh ℝ × GLState),
      CreateCircle Real.cos Real.sin (1 : ℝ) 2147483647 fuel GLState.initial = some m := by
  rintro ⟨fuel, m, h⟩
  have hr := rimLoop_intMax Real.cos Real.sin (1 : ℝ) fuel 0
    [⟨(0, 0, 0), (1, 0, 0), (1/2, 1/2)⟩] (by norm_num) (by norm_num)
  simp only [CreateCircle, hr] at h
  exact Option.noConfusion h

/-- C2, amended. For every radius and every segment count `n` with `1 ≤ n < 2^31 - 1`,
`CreateCircle` returns (once the fuel covers the `n + 2` loop tests) a mesh with exactly
`n + 2` vertices, the centre at index 0 followed by the rim vertices of the counters
`0..n`, and exactly `3n` indices whose `k`-th triangle (`k = 1..n`) is `(0, k, k+1)`; the
last triangle is `(0, n, n+1)` and `n + 1` is the index of the last vertex. -/
theorem CreateCircle_shape (cos sin : α → α) (radius : α) (n fuel : Nat) (gl : GLState)
    (h1 : 1 ≤ n) (h2 : n < 2 ^ 31 - 1) (hf : n + 2 ≤ fuel) :
    ∃ m gl', CreateCircle cos sin radius (n : Int) fuel gl = some (m, gl') ∧
      m.vertices.length = n + 2 ∧
      m.vertices[0]? = some ⟨(0, 0, 0), (1, 0, 0), (1/2, 1/2)⟩ ∧
      (∀ i : Nat, i ≤ n →
        m.vertices[i + 1]? = some (rimVertex cos sin radius (n : Int) (i : Int))) ∧
      m.indices.length = 3 * n ∧
      (∀ k, 1 ≤ k → k ≤ n → (triangles m.indices)[k - 1]? = some (0, k, k + 1)) ∧
      (triangles m.indices).length = n ∧
      (triangles m.indices).getLast? = some (0, n, n + 1) ∧
      m.vertices.length - 1 = n + 1 := by
  have h := CreateCircle_eq cos sin radius n fuel gl (by norm_num at h2; omega) hf
  generalize hm : Mesh.new _ _ gl = mesh at h
  have hv := congrArg (fun p => p.1.vertices) hm
  have hi := congrArg (fun p => p.1.indices) hm
  simp only [Mesh.new_vertices, Mesh.new_indices] at hv hi
  have ht : triangles mesh.1.indices = (List.range n).map (fun j => (0, j + 1, j + 1 + 1)) := by
    rw [← hi]
    exact triangles_fan n 1
  refine ⟨mesh.1, mesh.2, h, ?_, ?_, ?_, ?_, ?_, ?_, ?_, ?_⟩
  · rw [← hv]; simp
  · rw [← hv, List.getElem?_cons_zero]
  · intro i hin
    rw [← hv, List.getElem?_cons_succ, List.getElem?_map,
      List.getElem?_range (by omega : i < n + 1)]
    rfl
  · rw [← hi, length_flatMap_triples n (fun j => [0, j + 1, j + 2]) (fun _ => rfl)]
  · intro k hk1 hkn
    rw [ht, List.getElem?_map, List.getElem?_range (by omega : k - 1 < n)]
    simp only [Option.map_some']
    have : k - 1 + 1 = k := by omega
    rw [this]
  · rw [ht]; simp
  · rw [ht]
    obtain ⟨p, rfl⟩ : ∃ p, n = p + 1 := ⟨n - 1, by omega⟩
    rw [List.range_succ, List.map_append, List.map_singleton, List.getLast?_append]
    rfl
  · rw [← hv]; simp

/-- C2 at a concrete circle: radius 1 with 3 segments and fuel 5 over the reals. -/
theorem CreateCircle_shape_witness :
    ∃ m gl', CreateCircle Real.cos Real.sin (1 : ℝ) ((3 : Nat) : Int) 5 GLState.initial
        = some (m, gl') ∧
      m.vertices.length = 3 + 2 ∧
      m.vertices[0]? = some ⟨(0, 0, 0), (1, 0, 0), (1/2, 1/2)⟩ ∧
      (∀ i : Nat, i ≤ 3 →
        m.vertices[i + 1]? = some (rimVertex Real.cos Real.sin 1 ((3 : Nat) : Int) (i : Int))) ∧
      m.indices.length = 3 * 3 ∧
      (∀ k, 1 ≤ k → k ≤ 3 → (triangles m.indices)[k - 1]? = some (0, k, k + 1)) ∧
      (triangles m.indices).length = 3 ∧
      (triangles m.indices).getLast? = some (0, 3, 3 + 1) ∧
      m.vertices.length - 1 = 3 + 1 :=
  CreateCircle_shape Real.cos Real.sin (1 : ℝ) 3 5 GLState.initial
    (by decide) (by norm_num) (by decide)

end Claims

section OrderedClaims

variable {α : Type} [LinearOrderedField α]

/-! ## C3: the quad tiles its rectangle -/

/-- C3. For `w > 0` and `h > 0`, `CreateQuad w h` has the 4 vertex positions
`(w/2, h/2, 0)`, `(w/2, -h/2, 0)`, `(-w/2, -h/2, 0)`, `(-w/2, h/2, 0)` (each sign
combination once) and the 6 indices `0 1 3 1 2 3`; the triangles `(v0, v1, v3)` and
`(v1, v2, v3)` both lie inside the rectangle `[-w/2, w/2] x [-h/2, h/2]`, share only
points of the diagonal `v1 v3`, cover every point of the rectangle, and their areas
add up to `w * h`. -/
theorem CreateQuad_tiles (w h : α) (gl : GLState) (hw : 0 < w) (hh : 0 < h) :
    ∃ v0 v1 v2 v3 : α × α × α,
      (CreateQuad w h gl).1.vertices.map Vertex.Position = [v0, v1, v2, v3] ∧
      v0 = (w / 2, h / 2, 0) ∧ v1 = (w / 2, -(h / 2), 0) ∧
      v2 = (-(w / 2), -(h / 2), 0) ∧ v3 = (-(w / 2), h / 2, 0) ∧
      (CreateQuad w h gl).1.indices = [0, 1, 3, 1, 2, 3] ∧
      (CreateQuad w h gl).1.corners? (0, 1, 3) = some (v0, v1, v3) ∧
      (CreateQuad w h gl).1.corners? (1, 2, 3) = some (v1, v2, v3) ∧
      (∀ x y, InTriangle v0 v1 v3 x y → InRect w h x y) ∧
      (∀ x y, InTriangle v1 v2 v3 x y → InRect w h x y) ∧
      (∀ x y, InTriangle v0 v1 v3 x y → InTriangle v1 v2 v3 x y → OnSegment v1 v3 x y) ∧
      (∀ x y, InRect w h x y → InTriangle v0 v1 v3 x y ∨ InTriangle v1 v2 v3 x y) ∧
      |signedArea v0 v1 v3| / 2 + |signedArea v1 v2 v3| / 2 = w * h := by
  have ha : 0 < w / 2 := by positivity
  have hb : 0 < h / 2 := by positivity
  obtain ⟨p0, p1, p2, p3⟩ := quad_position? w h gl
  refine ⟨_, _, _, _, quad_positions w h gl, rfl, rfl, rfl, rfl, rfl, ?_, ?_, ?_, ?_, ?_, ?_, ?_⟩
  · simp only [Mesh.corners?, p0, p1, p3]
  · simp only [Mesh.corners?, p1, p2, p3]
  · intro x y hin
    exact inTriangle_upper_subset (w / 2) (h / 2) x y ha hb hin
  · intro x y hin
    exact inTriangle_lower_subset (w / 2) (h / 2) x y ha hb hin
  · intro x y h1 h2
    exact inTriangle_both_onSegment (w / 2) (h / 2) x y ha hb h1 h2
  · intro x y hr
    exact rect_subset_triangles (w / 2) (h / 2) x y ha hb hr.1 hr.2.1 hr.2.2.1 hr.2.2.2
  · have e1 : signedArea (w / 2, h / 2, (0 : α)) (w / 2, -(h / 2), 0) (-(w / 2), h / 2, 0)
        = -(w * h) := by
      simp only [signedArea]; ring
    have e2 : signedArea (w / 2, -(h / 2), (0 : α)) (-(w / 2), -(h / 2), 0) (-(w / 2), h / 2, 0)
        = -(w * h) := by
      simp only [signedArea]; ring
    have hwh : 0 < w * h := mul_pos hw hh
    rw [e1, e2, abs_neg, abs_of_pos hwh]
    ring

/-- C3 at a concrete quad: width 2 and height 1 over the rationals. -/
theorem CreateQuad_tiles_witness :
    ∃ v0 v1 v2 v3 : ℚ × ℚ × ℚ,
      (CreateQuad (2 : ℚ) 1 GLState.initial).1.vertices.map Vertex.Position = [v0, v1, v2, v3] ∧
      v0 = (2 / 2, 1 / 2, 0) ∧ v1 = (2 / 2, -(1 / 2), 0) ∧
      v2 = (-(2 / 2), -(1 / 2), 0) ∧ v3 = (-(2 / 2), 1 / 2, 0) ∧
      (CreateQuad (2 : ℚ) 1 GLState.initial).1.indices = [0, 1, 3, 1, 2, 3] ∧
      (CreateQuad (2 : ℚ) 1 GLState.initial).1.corners? (0, 1, 3) = some (v0, v1, v3) ∧
      (CreateQuad (2 : ℚ) 1 GLState.initial).1.corners? (1, 2, 3) = some (v1, v2, v3) ∧
      (∀ x y, InTriangle v0 v1 v3 x y → InRect 2 1 x y) ∧
      (∀ x y, InTriangle v1 v2 v3 x y → InRect 2 1 x y) ∧
      (∀ x y, InTriangle v0 v1 v3 x y → InTriangle v1 v2 v3 x y → OnSegment v1 v3 x y) ∧
      (∀ x y, InRect 2 1 x y → InTriangle v0 v1 v3 x y ∨ InTriangle v1 v2 v3 x y) ∧
      |signedArea v0 v1 v3| / 2 + |signedArea v1 v2 v3| / 2 = 2 * 1 :=
  CreateQuad_tiles (2 : ℚ) 1 GLState.initial (by norm_num) (by norm_num)

/-! ## C4: the winding of the quad -/

/-- C4 as stated fails for the quad of width 1 and height 1: its triangles are not
counter-clockwise (the signed area of `(0, 1, 3)` is `-1`). -/
theorem CreateQuad_not_counterClockwise :
    ¬ (CreateQuad (1 : ℚ) 1 GLState.initial).1.windsCounterClockwise := by
  intro hccw
  obtain ⟨a, b, c, hc, hpos⟩ := hccw (0, 1, 3) (by simp [CreateQuad, triangles])
  obtain ⟨p0, p1, -, p3⟩ := quad_position? (1 : ℚ) 1 GLState.initial
  simp only [Mesh.corners?, p0, p1, p3, Option.some.injEq, Prod.mk.injEq] at hc
  obtain ⟨rfl, rfl, rfl⟩ := hc
  simp only [signedArea] at hpos
  norm_num at hpos

/-- C4, amended. For `w > 0` and `h > 0` the two triangles `(0, 1, 3)` and `(1, 2, 3)`
of `CreateQuad w h` have the same winding order, and that order is clockwise in the XY
plane seen from `+Z`: the signed area of each index triple is strictly negative. -/
theorem CreateQuad_windsClockwise (w h : α) (gl : GLState) (hw : 0 < w) (hh : 0 < h) :
    triangles (CreateQuad w h gl).1.indices = [(0, 1, 3), (1, 2, 3)] ∧
      (CreateQuad w h gl).1.windsClockwise := by
  have htri : triangles (CreateQuad w h gl).1.indices = [(0, 1, 3), (1, 2, 3)] := by
    simp [CreateQuad, triangles]
  refine ⟨htri, ?_⟩
  obtain ⟨p0, p1, p2, p3⟩ := quad_position? w h gl
  have hwh : 0 < w * h := mul_pos hw hh
  intro t ht
  rw [htri] at ht
  simp only [List.mem_cons, List.mem_singleton, List.not_mem_nil, or_false] at ht
  rcases ht with rfl | rfl
  · have hc : (CreateQuad w h gl).1.corners? (0, 1, 3) =
        some ((w / 2, h / 2, 0), (w / 2, -(h / 2), 0), (-(w / 2), h / 2, 0)) := by
      simp only [Mesh.corners?, p0, p1, p3]
    refine ⟨_, _, _, hc, ?_⟩
    have e : signedArea (w / 2, h / 2, (0 : α)) (w / 2, -(h / 2), 0) (-(w / 2), h / 2, 0)
        = -(w * h) := by
      simp only [signedArea]; ring
    rw [e]; linarith
  · have hc : (CreateQuad w h gl).1.corners? (1, 2, 3) =
        some ((w / 2, -(h / 2), 0), (-(w / 2), -(h / 2), 0), (-(w / 2), h / 2, 0)) := by
      simp only [Mesh.corners?, p1, p2, p3]
    refine ⟨_, _, _, hc, ?_⟩
    have e : signedArea (w / 2, -(h / 2), (0 : α)) (-(w / 2), -(h / 2), 0) (-(w / 2), h / 2, 0)
        = -(w * h) := by
      simp only [signedArea]; ring
    rw [e]; linarith

/-- C4, amended, at a concrete quad: width 2 and height 1 over the rationals. -/
theorem CreateQuad_windsClockwise_witness :
    triangles (CreateQuad (2 : ℚ) 1 GLState.initial).1.indices = [(0, 1, 3), (1, 2, 3)] ∧
      (CreateQuad (2 : ℚ) 1 GLState.initial).1.windsClockwise :=
  CreateQuad_windsClockwise (2 : ℚ) 1 GLState.initial (by norm_num) (by norm_num)

/-! ## C5: the winding of the pyramid -/

/-- The normals of the two base triangles and the outwardness of the four side triangles
of `CreatePyramid b h`, measured from the interior point `(0, h/4, 0)`. -/
theorem pyramid_normals (b h : α) (gl : GLState) :
    (CreatePyramid b h gl).1.triangleNormal? (0, 1, 2) = some (0, -b ^ 2, 0) ∧
    (CreatePyramid b h gl).1.triangleNormal? (2, 3, 0) = some (0, -b ^ 2, 0) ∧
    (CreatePyramid b h gl).1.outwardness? (0, h / 4, 0) (0, 1, 4) = some (-(3 / 8 * b ^ 2 * h)) ∧
    (CreatePyramid b h gl).1.outwardness? (0, h / 4, 0) (1, 2, 4) = some (-(3 / 8 * b ^ 2 * h)) ∧
    (CreatePyramid b h gl).1.outwardness? (0, h / 4, 0) (2, 3, 4) = some (-(3 / 8 * b ^ 2 * h)) ∧
    (CreatePyramid b h gl).1.outwardness? (0, h / 4, 0) (3, 0, 4) = some (-(3 / 8 * b ^ 2 * h)) := by
  simp only [CreatePyramid, Mesh.triangleNormal?, Mesh.outwardness?, Mesh.corners?,
    Mesh.position?, Mesh.new_vertices]
  simp only [List.getElem?_cons_succ, List.getElem?_cons_zero, Option.map_some', normal, cross,
    sub3, dot, centroid]
  simp only [Option.some.injEq, Prod.mk.injEq]
  and_intros
  all_goals ring

/-- C5, as the code has it. For `b > 0` and `h > 0` the six triangles of `CreatePyramid b h`
are `(0,1,2)`, `(2,3,0)`, `(0,1,4)`, `(1,2,4)`, `(2,3,4)`, `(3,0,4)`; the two base triangles
have the same normal `(0, -b², 0)` (downward, away from the apex), but each of the four
side triangles winds inward: the dot product of its normal with the vector from the
interior point `(0, h/4, 0)` to its centroid is strictly negative. -/
theorem CreatePyramid_sides_wind_inward (b h : α) (gl : GLState) (hb : 0 < b) (hh : 0 < h) :
    triangles (CreatePyramid b h gl).1.indices =
      [(0, 1, 2), (2, 3, 0), (0, 1, 4), (1, 2, 4), (2, 3, 4), (3, 0, 4)] ∧
    (∃ n, (CreatePyramid b h gl).1.triangleNormal? (0, 1, 2) = some n ∧
      (CreatePyramid b h gl).1.triangleNormal? (2, 3, 0) = some n ∧ n.2.1 < 0) ∧
    ∀ t ∈ [(0, 1, 4), (1, 2, 4), (2, 3, 4), (3, 0, 4)],
      ∃ d, (CreatePyramid b h gl).1.outwardness? (0, h / 4, 0) t = some d ∧ d < 0 := by
  obtain ⟨n1, n2, o1, o2, o3, o4⟩ := pyramid_normals b h gl
  have hneg : -(3 / 8 * b ^ 2 * h) < 0 := by
    have : 0 < 3 / 8 * b ^ 2 * h := by positivity
    linarith
  refine ⟨rfl, ⟨_, n1, n2, ?_⟩, ?_⟩
  · have : 0 < b ^ 2 := by positivity
    simp only
    linarith
  · intro t ht
    simp only [List.mem_cons, List.mem_singleton, List.not_mem_nil, or_false] at ht
    rcases ht with rfl | rfl | rfl | rfl
    · exact ⟨_, o1, hneg⟩
    · exact ⟨_, o2, hneg⟩
    · exact ⟨_, o3, hneg⟩
    · exact ⟨_, o4, hneg⟩

/-- C5 at the failing input: base 2 and height 1 over the rationals. -/
theorem CreatePyramid_sides_wind_inward_witness :
    triangles (CreatePyramid (2 : ℚ) 1 GLState.initial).1.indices =
      [(0, 1, 2), (2, 3, 0), (0, 1, 4), (1, 2, 4), (2, 3, 4), (3, 0, 4)] ∧
    (∃ n, (CreatePyramid (2 : ℚ) 1 GLState.initial).1.triangleNormal? (0, 1, 2) = some n ∧
      (CreatePyramid (2 : ℚ) 1 GLState.initial).1.triangleNormal? (2, 3, 0) = some n ∧
      n.2.1 < 0) ∧
    ∀ t ∈ [(0, 1, 4), (1, 2, 4), (2, 3, 4), (3, 0, 4)],
      ∃ d, (CreatePyramid (2 : ℚ) 1 GLState.initial).1.outwardness? (0, 1 / 4, 0) t = some d ∧
        d < 0 :=
  CreatePyramid_sides_wind_inward (2 : ℚ) 1 GLState.initial (by norm_num) (by norm_num)

/-! ## C10: the winding of the cube -/

/-- The normals of the twelve triangles of `CreateCube s`, in index order. -/
theorem cube_normals (s : α) (gl : GLState) :
    (triangles (CreateCube s gl).1.indices).map (CreateCube s gl).1.triangleNormal? =
      [some (0, 0, s ^ 2), some (0, 0, s ^ 2), some (s ^ 2, 0, 0), some (s ^ 2, 0, 0),
       some (0, 0, -s ^ 2), some (0, 0, -s ^ 2), some (-s ^ 2, 0, 0), some (-s ^ 2, 0, 0),
       some (0, s ^ 2, 0), some (0, s ^ 2, 0), some (0, -s ^ 2, 0), some (0, -s ^ 2, 0)] := by
  simp only [CreateCube, Mesh.new_indices, triangles, List.map_cons, List.map_nil,
    Mesh.triangleNormal?, Mesh.corners?, Mesh.position?, Mesh.new_vertices]
  simp only [List.getElem?_cons_succ, List.getElem?_cons_zero, Option.map_some', normal, cross,
    sub3]
  simp only [List.cons.injEq, Option.some.injEq, Prod.mk.injEq, and_true]
  and_intros
  all_goals ring

/-- The three corners of every triangle of `CreateCube s` have offset `s/2` along the
outward axis of the face its group is listed under: the triangle lies in that face's
plane. -/
theorem cube_faceOffsets (s : α) (gl : GLState) :
    (CreateCube s gl).1.faceOffsets? (faceAxis 0) (0, 1, 2) = some (s / 2, s / 2, s / 2) ∧
    (CreateCube s gl).1.faceOffsets? (faceAxis 0) (2, 3, 0) = some (s / 2, s / 2, s / 2) ∧
    (CreateCube s gl).1.faceOffsets? (faceAxis 1) (1, 5, 6) = some (s / 2, s / 2, s / 2) ∧
    (CreateCube s gl).1.faceOffsets? (faceAxis 1) (6, 2, 1) = some (s / 2, s / 2, s / 2) ∧
    (CreateCube s gl).1.faceOffsets? (faceAxis 2) (5, 4, 7) = some (s / 2, s / 2, s / 2) ∧
    (CreateCube s gl).1.faceOffsets? (faceAxis 2) (7, 6, 5) = some (s / 2, s / 2, s / 2) ∧
    (CreateCube s gl).1.faceOffsets? (faceAxis 3) (4, 0, 3) = some (s / 2, s / 2, s / 2) ∧
    (CreateCube s gl).1.faceOffsets? (faceAxis 3) (3, 7, 4) = some (s / 2, s / 2, s / 2) ∧
    (CreateCube s gl).1.faceOffsets? (faceAxis 4) (3, 2, 6) = some (s / 2, s / 2, s / 2) ∧
    (CreateCube s gl).1.faceOffsets? (faceAxis 4) (6, 7, 3) = some (s / 2, s / 2, s / 2) ∧
    (CreateCube s gl).1.faceOffsets? (faceAxis 5) (4, 5, 1) = some (s / 2, s / 2, s / 2) ∧
    (CreateCube s gl).1.faceOffsets? (faceAxis 5) (1, 0, 4) = some (s / 2, s / 2, s / 2) := by
  simp only [CreateCube, Mesh.faceOffsets?, Mesh.corners?, Mesh.position?, Mesh.new_vertices,
    faceAxis]
  simp only [List.getElem?_cons_succ, List.getElem?_cons_zero, Option.map_some', dot]
  simp only [Option.some.injEq, Prod.mk.injEq]
  and_intros
  all_goals ring

/-- The outwardness of every triangle of `CreateCube s`, measured from the centre of the
cube. -/
theorem cube_outwardness (s : α) (gl : GLState) :
    (CreateCube s gl).1.outwardness? (0, 0, 0) (0, 1, 2) = some (s ^ 3 / 2) ∧
    (CreateCube s gl).1.outwardness? (0, 0, 0) (2, 3, 0) = some (s ^ 3 / 2) ∧
    (CreateCube s gl).1.outwardness? (0, 0, 0) (1, 5, 6) = some (s ^ 3 / 2) ∧
    (CreateCube s gl).1.outwardness? (0, 0, 0) (6, 2, 1) = some (s ^ 3 / 2) ∧
    (CreateCube s gl).1.outwardness? (0, 0, 0) (5, 4, 7) = some (s ^ 3 / 2) ∧
    (CreateCube s gl).1.outwardness? (0, 0, 0) (7, 6, 5) = some (s ^ 3 / 2) ∧
    (CreateCube s gl).1.outwardness? (0, 0, 0) (4, 0, 3) = some (s ^ 3 / 2) ∧
    (CreateCube s gl).1.outwardness? (0, 0, 0) (3, 7, 4) = some (s ^ 3 / 2) ∧
    (CreateCube s gl).1.outwardness? (0, 0, 0) (3, 2, 6) = some (s ^ 3 / 2) ∧
    (CreateCube s gl).1.outwardness? (0, 0, 0) (6, 7, 3) = some (s ^ 3 / 2) ∧
    (CreateCube s gl).1.outwardness? (0, 0, 0) (4, 5, 1) = some (s ^ 3 / 2) ∧
    (CreateCube s gl).1.outwardness? (0, 0, 0) (1, 0, 4) = some (s ^ 3 / 2) := by
  simp only [CreateCube, Mesh.outwardness?, Mesh.corners?, Mesh.position?, Mesh.new_vertices]
  simp only [List.getElem?_cons_succ, List.getElem?_cons_zero, Option.map_some', normal, cross,
    sub3, dot, centroid]
  simp only [Option.some.injEq]
  and_intros
  all_goals ring

/-- C10. For `s > 0` the index list of `CreateCube s` is 12 triangles, and triangle number
`k` (two per face, faces in the order front, right, back, left, top, bottom) lies on the
face its group is labelled with and faces outward: its three corners all have offset
`s/2` along the outward axis of face `k / 2` (`+Z`, `+X`, `-Z`, `-X`, `+Y`, `-Y`), so the
triangle lies in that face's plane; its normal `(vb - va) × (vc - va)` is a positive
multiple of that axis; and the dot product of the normal with the vector from the centre
of the cube to the triangle's centroid is strictly positive. -/
theorem CreateCube_faces_outward (s : α) (gl : GLState) (hs : 0 < s) :
    (triangles (CreateCube s gl).1.indices).length = 12 ∧
    ∀ k, k < 12 → ∃ t c d, (triangles (CreateCube s gl).1.indices)[k]? = some t ∧ 0 < c ∧
      (CreateCube s gl).1.triangleNormal? t = some (smul3 c (faceAxis (k / 2))) ∧
      (CreateCube s gl).1.faceOffsets? (faceAxis (k / 2)) t = some (s / 2, s / 2, s / 2) ∧
      (CreateCube s gl).1.outwardness? (0, 0, 0) t = some d ∧ 0 < d := by
  refine ⟨rfl, ?_⟩
  intro k hk
  have hn := fun k : Nat =>
    congrArg (fun l : List (Option (α × α × α)) => l[k]?) (cube_normals s gl)
  simp only [List.getElem?_map] at hn
  have hpos : 0 < s ^ 2 := by positivity
  have hpos3 : 0 < s ^ 3 / 2 := by positivity
  obtain ⟨f0, f1, f2, f3, f4, f5, f6, f7, f8, f9, f10, f11⟩ := cube_faceOffsets s gl
  obtain ⟨o0, o1, o2, o3, o4, o5, o6, o7, o8, o9, o10, o11⟩ := cube_outwardness s gl
  interval_cases k
  · refine ⟨_, s ^ 2, s ^ 3 / 2, rfl, hpos, ?_, f0, o0, hpos3⟩
    refine (Option.some_inj.mp (hn 0)).trans ?_
    simp [smul3, faceAxis]
  · refine ⟨_, s ^ 2, s ^ 3 / 2, rfl, hpos, ?_, f1, o1, hpos3⟩
    refine (Option.some_inj.mp (hn 1)).trans ?_
    simp [smul3, faceAxis]
  · refine ⟨_, s ^ 2, s ^ 3 / 2, rfl, hpos, ?_, f2, o2, hpos3⟩
    refine (Option.some_inj.mp (hn 2)).trans ?_
    simp [smul3, faceAxis]
  · refine ⟨_, s ^ 2, s ^ 3 / 2, rfl, hpos, ?_, f3, o3, hpos3⟩
    refine (Option.some_inj.mp (hn 3)).trans ?_
    simp [smul3, faceAxis]
  · refine ⟨_, s ^ 2, s ^ 3 / 2, rfl, hpos, ?_, f4, o4, hpos3⟩
    refine (Option.some_inj.mp (hn 4)).trans ?_
    simp [smul3, faceAxis]
  · refine ⟨_, s ^ 2, s ^ 3 / 2, rfl, hpos, ?_, f5, o5, hpos3⟩
    refine (Option.some_inj.mp (hn 5)).trans ?_
    simp [smul3, faceAxis]
  · refine ⟨_, s ^ 2, s ^ 3 / 2, rfl, hpos, ?_, f6, o6, hpos3⟩
    refine (Option.some_inj.mp (hn 6)).trans ?_
    simp [smul3, faceAxis]
  · refine ⟨_, s ^ 2, s ^ 3 / 2, rfl, hpos, ?_, f7, o7, hpos3⟩
    refine (Option.some_inj.mp (hn 7)).trans ?_
    simp [smul3, faceAxis]
  · refine ⟨_, s ^ 2, s ^ 3 / 2, rfl, hpos, ?_, f8, o8, hpos3⟩
    refine (Option.some_inj.mp (hn 8)).trans ?_
    simp [smul3, faceAxis]
  · refine ⟨_, s ^ 2, s ^ 3 / 2, rfl, hpos, ?_, f9, o9, hpos3⟩
    refine (Option.some_inj.mp (hn 9)).trans ?_
    simp [smul3, faceAxis]
  · refine ⟨_, s ^ 2, s ^ 3 / 2, rfl, hpos, ?_, f10, o10, hpos3⟩
    refine (Option.some_inj.mp (hn 10)).trans ?_
    simp [smul3, faceAxis]
  · refine ⟨_, s ^ 2, s ^ 3 / 2, rfl, hpos, ?_, f11, o11, hpos3⟩
    refine (Option.some_inj.mp (hn 11)).trans ?_
    simp [smul3, faceAxis]

/-- C10 at a concrete cube: size 2 over the rationals. -/
theorem CreateCube_faces_outward_witness :
    (triangles (CreateCube (2 : ℚ) GLState.initial).1.indices).length = 12 ∧
    ∀ k, k < 12 → ∃ t c d,
      (triangles (CreateCube (2 : ℚ) GLState.initial).1.indices)[k]? = some t ∧ 0 < c ∧
      (CreateCube (2 : ℚ) GLState.initial).1.triangleNormal? t
        = some (smul3 c (faceAxis (k / 2))) ∧
      (CreateCube (2 : ℚ) GLState.initial).1.faceOffsets? (faceAxis (k / 2)) t
        = some (2 / 2, 2 / 2, 2 / 2) ∧
      (CreateCube (2 : ℚ) GLState.initial).1.outwardness? (0, 0, 0) t = some d ∧ 0 < d :=
  CreateCube_faces_outward (2 : ℚ) GLState.initial (by norm_num)

/-! ## C7: the corners of the cube -/

/-- C7. `CreateCube s` has exactly 8 vertices; every coordinate of every vertex is `s/2`
or `-s/2`; the positions are the corners `(±s/2, ±s/2, ±s/2)` for a list of 8 sign triples
in which each of the 8 sign combinations occurs exactly once (so for `s ≠ 0` the 8
positions are pairwise different); there are exactly 36 indices, 12 triangles, and every
vertex index `0..7` occurs in the index list. -/
theorem CreateCube_vertices_covered (s : α) (gl : GLState) :
    (CreateCube s gl).1.vertices.length = 8 ∧
    (∀ v ∈ (CreateCube s gl).1.vertices,
      (v.Position.1 = s / 2 ∨ v.Position.1 = -(s / 2)) ∧
      (v.Position.2.1 = s / 2 ∨ v.Position.2.1 = -(s / 2)) ∧
      (v.Position.2.2 = s / 2 ∨ v.Position.2.2 = -(s / 2))) ∧
    (∃ signs : List (Int × Int × Int),
      signs.length = 8 ∧ (∀ σ ∈ signCombinations, signs.count σ = 1) ∧
      (CreateCube s gl).1.vertices.map Vertex.Position = signs.map (signedCorner (s / 2))) ∧
    (s ≠ 0 → ((CreateCube s gl).1.vertices.map Vertex.Position).Nodup) ∧
    (CreateCube s gl).1.indices.length = 36 ∧
    (triangles (CreateCube s gl).1.indices).length = 12 ∧
    ∀ i, i < 8 → i ∈ (CreateCube s gl).1.indices := by
  refine ⟨rfl, ?_, ?_, ?_, rfl, rfl, ?_⟩
  · intro v hv
    simp only [CreateCube, Mesh.new_vertices, List.mem_cons, List.mem_singleton,
      List.not_mem_nil, or_false] at hv
    rcases hv with rfl | rfl | rfl | rfl | rfl | rfl | rfl | rfl <;>
      refine ⟨?_, ?_, ?_⟩ <;>
      first
      | (left; show _ = s / 2; ring1)
      | (right; show _ = -(s / 2); ring1)
  · refine ⟨[(-1, -1, 1), (1, -1, 1), (1, 1, 1), (-1, 1, 1),
      (-1, -1, -1), (1, -1, -1), (1, 1, -1), (-1, 1, -1)], rfl, by decide, ?_⟩
    simp [CreateCube, signedCorner, div_eq_mul_inv]
  · intro hs
    have hne : ¬ s * 2⁻¹ = -(s * 2⁻¹) := by
      intro h
      have h0 : s * 2⁻¹ + s * 2⁻¹ = 0 := by nth_rewrite 2 [h]; ring
      have : s = 0 := by linear_combination h0
      exact hs this
    have hne' : ¬ -(s * 2⁻¹) = s * 2⁻¹ := fun h => hne h.symm
    simp [CreateCube, hne, hne']
  · intro i hi
    simp only [CreateCube, Mesh.new_indices]
    interval_cases i <;> decide

/-- C7 at a concrete cube: size 2 over the rationals has 8 different corners and its index
list refers to vertex 5. -/
theorem CreateCube_vertices_covered_witness :
    ((CreateCube (2 : ℚ) GLState.initial).1.vertices.map Vertex.Position).Nodup ∧
      5 ∈ (CreateCube (2 : ℚ) GLState.initial).1.indices :=
  ⟨(CreateCube_vertices_covered (2 : ℚ) GLState.initial).2.2.2.1 (by norm_num),
    (CreateCube_vertices_covered (2 : ℚ) GLState.initial).2.2.2.2.2.2 5 (by decide)⟩

/-! ## C6: the texture coordinates of the cube faces -/

/-- The texture coordinates that each of the six faces of `CreateCube s` refers to. -/
theorem cube_faceTexCoords (s : α) (gl : GLState) :
    faceTexCoords (CreateCube s gl).1 0 = [(0, 0), (1, 0), (1, 1), (1, 1), (0, 1), (0, 0)] ∧
    faceTexCoords (CreateCube s gl).1 1 = [(1, 0), (0, 0), (0, 1), (0, 1), (1, 1), (1, 0)] ∧
    faceTexCoords (CreateCube s gl).1 2 = [(0, 0), (1, 0), (1, 1), (1, 1), (0, 1), (0, 0)] ∧
    faceTexCoords (CreateCube s gl).1 3 = [(1, 0), (0, 0), (0, 1), (0, 1), (1, 1), (1, 0)] ∧
    faceTexCoords (CreateCube s gl).1 4 = [(0, 1), (1, 1), (0, 1), (0, 1), (1, 1), (0, 1)] ∧
    faceTexCoords (CreateCube s gl).1 5 = [(1, 0), (0, 0), (1, 0), (1, 0), (0, 0), (1, 0)] := by
  refine ⟨rfl, rfl, rfl, rfl, rfl, rfl⟩

/-- C6 as stated fails for the cube of size 1: not every one of its six faces refers to
all four UV corners (the top face never refers to `(1, 0)`). -/
theorem CreateCube_not_all_faces_have_uv_corners :
    ¬ ∀ k, k < 6 → (CreateCube (1 : ℚ) GLState.initial).1.faceHasAllUVCorners k := by
  intro hall
  have h := (hall 4 (by decide) ((1 : ℚ), (0 : ℚ))).mpr (by simp)
  rw [(cube_faceTexCoords (1 : ℚ) GLState.initial).2.2.2.2.1] at h
  simp at h

/-- C6, amended. In `CreateCube s` every face (consecutive group of 6 indices) refers to 4
distinct vertices; for the faces front, right, back and left the texture coordinates of
those vertices are exactly `(0,0)`, `(1,0)`, `(1,1)`, `(0,1)`; the top face uses exactly
`(0,1)` and `(1,1)`, and the bottom face exactly `(0,0)` and `(1,0)`. -/
theorem CreateCube_face_uvs (s : α) (gl : GLState) :
    (∀ k, k < 6 → (faceIndices (CreateCube s gl).1 k).dedup.length = 4) ∧
    (∀ k, k < 4 → (CreateCube s gl).1.faceHasAllUVCorners k) ∧
    (∀ uv : α × α, uv ∈ faceTexCoords (CreateCube s gl).1 4 ↔ uv ∈ [((0 : α), (1 : α)), (1, 1)]) ∧
    (∀ uv : α × α, uv ∈ faceTexCoords (CreateCube s gl).1 5 ↔ uv ∈ [((0 : α), (0 : α)), (1, 0)]) ∧
    ((1 : α), (0 : α)) ∉ faceTexCoords (CreateCube s gl).1 4 ∧
    ((0 : α), (1 : α)) ∉ faceTexCoords (CreateCube s gl).1 5 := by
  obtain ⟨f0, f1, f2, f3, f4, f5⟩ := cube_faceTexCoords s gl
  refine ⟨?_, ?_, ?_, ?_, ?_, ?_⟩
  · intro k hk
    have hi : (CreateCube s gl).1.indices =
        [0, 1, 2, 2, 3, 0, 1, 5, 6, 6, 2, 1, 5, 4, 7, 7, 6, 5,
         4, 0, 3, 3, 7, 4, 3, 2, 6, 6, 7, 3, 4, 5, 1, 1, 0, 4] := rfl
    unfold faceIndices
    rw [hi]
    interval_cases k <;> decide
  · intro k hk uv
    interval_cases k
    · rw [f0]; simp only [List.mem_cons, List.mem_singleton, List.not_mem_nil, or_false]; tauto
    · rw [f1]; simp only [List.mem_cons, List.mem_singleton, List.not_mem_nil, or_false]; tauto
    · rw [f2]; simp only [List.mem_cons, List.mem_singleton, List.not_mem_nil, or_false]; tauto
    · rw [f3]; simp only [List.mem_cons, List.mem_singleton, List.not_mem_nil, or_false]; tauto
  · intro uv
    rw [f4]; simp only [List.mem_cons, List.mem_singleton, List.not_mem_nil, or_false]; tauto
  · intro uv
    rw [f5]; simp only [List.mem_cons, List.mem_singleton, List.not_mem_nil, or_false]; tauto
  · rw [f4]; simp
  · rw [f5]; simp

/-- C6, amended, at a concrete cube: the left face of the cube of size 1. -/
theorem CreateCube_face_uvs_witness :
    (CreateCube (1 : ℚ) GLState.initial).1.faceHasAllUVCorners 3 :=
  (CreateCube_face_uvs (1 : ℚ) GLState.initial).2.1 3 (by decide)

end OrderedClaims

/-! ## C8: the fan closes -/

/-- The angle `2 * 3.1415926` of the closing rim vertex is within `2 * 10^-6` of a full
turn, so its cosine is within `2 * 10^-12` of 1. -/
theorem closing_angle_cos : 1 - 2 / 10 ^ 12 ≤ Real.cos (2 * (31415926 / 10000000)) := by
  have h1 := Real.pi_gt_d6
  have h2 := Real.pi_lt_d6
  have hcos : Real.cos (2 * (31415926 / 10000000)) =
      Real.cos (2 * (31415926 / 10000000) - 2 * Real.pi) := (Real.cos_sub_two_pi _).symm
  have hb := Real.one_sub_sq_div_two_le_cos (x := 2 * (31415926 / 10000000) - 2 * Real.pi)
  rw [hcos]
  have hd1 : -(2 / 10 ^ 6 : ℝ) ≤ 2 * (31415926 / 10000000) - 2 * Real.pi := by
    norm_num at h1 h2 ⊢; linarith
  have hd2 : 2 * (31415926 / 10000000) - 2 * Real.pi ≤ (2 / 10 ^ 6 : ℝ) := by
    norm_num at h1 h2 ⊢; linarith
  have hsq : (2 * (31415926 / 10000000) - 2 * Real.pi) ^ 2 ≤ (2 / 10 ^ 6 : ℝ) ^ 2 :=
    sq_le_sq' hd1 hd2
  have : (2 / 10 ^ 6 : ℝ) ^ 2 / 2 = 2 / 10 ^ 12 := by norm_num
  linarith

/-- The closing rim point `(r cos A, r sin A, 0)` is within `r * 10^-5` of `(r, 0, 0)`. -/
theorem closing_dist (r : ℝ) (hr : 0 < r) :
    Real.sqrt (distSq (r * Real.cos (2 * (31415926 / 10000000)),
      r * Real.sin (2 * (31415926 / 10000000)), (0 : ℝ)) (r, 0, 0)) ≤ r / 100000 := by
  have hc := closing_angle_cos
  have hsc := Real.sin_sq_add_cos_sq (2 * (31415926 / 10000000))
  have e : distSq (r * Real.cos (2 * (31415926 / 10000000)),
      r * Real.sin (2 * (31415926 / 10000000)), (0 : ℝ)) (r, 0, 0)
      = r ^ 2 * (2 - 2 * Real.cos (2 * (31415926 / 10000000))) := by
    simp only [distSq]
    linear_combination r ^ 2 * hsc
  rw [e, Real.sqrt_le_left (by positivity)]
  have hr2 : 0 < r ^ 2 := by positivity
  have : (r / 100000) ^ 2 = r ^ 2 * (1 / 10 ^ 10) := by ring
  rw [this]
  apply mul_le_mul_of_nonneg_left _ hr2.le
  norm_num at hc ⊢
  linarith

/-- A rim point `(r cos a, r sin a, 0)` is at distance `r` from the centre. -/
theorem rim_dist (r a : ℝ) (hr : 0 < r) :
    Real.sqrt (distSq (r * Real.cos a, r * Real.sin a, (0 : ℝ)) (0, 0, 0)) = r := by
  have hsc := Real.sin_sq_add_cos_sq a
  have e : distSq (r * Real.cos a, r * Real.sin a, (0 : ℝ)) (0, 0, 0) = r ^ 2 := by
    simp only [distSq]
    linear_combination r ^ 2 * hsc
  rw [e, Real.sqrt_sq hr.le]

/-- C8 as stated fails at the segment count `n = 2^31 - 1`: no amount of fuel yields a
mesh, so there is no closing rim vertex at index `n + 1`. -/
theorem CreateCircle_intMax_no_closing_vertex :
    ¬ ∃ (fuel : Nat) (m : Mesh ℝ × GLState) (l : ℝ × ℝ × ℝ),
      CreateCircle Real.cos Real.sin (1 : ℝ) 2147483647 fuel GLState.initial = some m ∧
        m.1.position? (2147483647 + 1) = some l := by
  rintro ⟨fuel, m, l, h, -⟩
  have hr := rimLoop_intMax Real.cos Real.sin (1 : ℝ) fuel 0
    [⟨(0, 0, 0), (1, 0, 0), (1/2, 1/2)⟩] (by norm_num) (by norm_num)
  simp only [CreateCircle, hr] at h
  exact Option.noConfusion h

/-- C8, amended. Over the reals, with `3.1415926` for pi: for every radius `r > 0` and
segment count `n` with `1 ≤ n < 2^31 - 1`, `CreateCircle r n` returns a mesh whose last
triangle is `(0, n, n+1)`, whose first rim vertex (index 1) is `(r, 0, 0)`, whose closing
rim vertex (index `n+1`) is at distance at most `r * 10^-5` from it, and both are at
distance exactly `r` from the centre vertex (index 0). -/
theorem CreateCircle_fan_closes (r : ℝ) (n fuel : Nat) (gl : GLState)
    (hr : 0 < r) (h1 : 1 ≤ n) (h2 : n < 2 ^ 31 - 1) (hf : n + 2 ≤ fuel) :
    ∃ m gl' c f l, CreateCircle Real.cos Real.sin r (n : Int) fuel gl = some (m, gl') ∧
      (triangles m.indices).getLast? = some (0, n, n + 1) ∧
      m.position? 0 = some c ∧ m.position? 1 = some f ∧ m.position? (n + 1) = some l ∧
      f = (r, 0, 0) ∧
      Real.sqrt (distSq l f) ≤ r / 100000 ∧
      Real.sqrt (distSq f c) = r ∧ Real.sqrt (distSq l c) = r := by
  have h := CreateCircle_eq Real.cos Real.sin r n fuel gl (by norm_num at h2; omega) hf
  generalize hm : Mesh.new _ _ gl = mesh at h
  have hv := congrArg (fun p => p.1.vertices) hm
  have hi := congrArg (fun p => p.1.indices) hm
  simp only [Mesh.new_vertices, Mesh.new_indices] at hv hi
  have hn0 : ((n : Int) : ℝ) ≠ 0 := by
    have : (0 : ℝ) < ((n : Int) : ℝ) := by exact_mod_cast h1
    exact ne_of_gt this
  have hfirst : (rimVertex Real.cos Real.sin r (n : Int) ((0 : Nat) : Int)).Position
      = (r, 0, 0) := by
    simp [rimVertex]
  have hlast : (rimVertex Real.cos Real.sin r (n : Int) ((n : Nat) : Int)).Position
      = (r * Real.cos (2 * (31415926 / 10000000)),
          r * Real.sin (2 * (31415926 / 10000000)), 0) := by
    simp only [rimVertex]
    rw [mul_div_assoc, div_self hn0, mul_one]
  have p0 : mesh.1.position? 0 = some (0, 0, 0) := by
    rw [Mesh.position?, ← hv, List.getElem?_cons_zero]; rfl
  have p1 : mesh.1.position? 1 = some (r, 0, 0) := by
    rw [Mesh.position?, ← hv, List.getElem?_cons_succ, List.getElem?_map,
      List.getElem?_range (by omega : 0 < n + 1), Option.map_some', Option.map_some', hfirst]
  have pl : mesh.1.position? (n + 1) = some (r * Real.cos (2 * (31415926 / 10000000)),
      r * Real.sin (2 * (31415926 / 10000000)), 0) := by
    rw [Mesh.position?, ← hv, List.getElem?_cons_succ, List.getElem?_map,
      List.getElem?_range (by omega : n < n + 1), Option.map_some', Option.map_some', hlast]
  have ht : (triangles mesh.1.indices).getLast? = some (0, n, n + 1) := by
    rw [← hi]
    have := triangles_fan n 1
    rw [this]
    obtain ⟨p, rfl⟩ : ∃ p, n = p + 1 := ⟨n - 1, by omega⟩
    rw [List.range_succ, List.map_append, List.map_singleton, List.getLast?_append]
    rfl
  refine ⟨mesh.1, mesh.2, _, _, _, h, ht, p0, p1, pl, rfl, closing_dist r hr, ?_, rim_dist r _ hr⟩
  have := rim_dist r 0 hr
  simpa using this

/-- C8, amended, at a concrete circle: radius 2 with 8 segments and fuel 10. -/
theorem CreateCircle_fan_closes_witness :
    ∃ m gl' c f l,
      CreateCircle Real.cos Real.sin (2 : ℝ) ((8 : Nat) : Int) 10 GLState.initial
        = some (m, gl') ∧
      (triangles m.indices).getLast? = some (0, 8, 8 + 1) ∧
      m.position? 0 = some c ∧ m.position? 1 = some f ∧ m.position? (8 + 1) = some l ∧
      f = (2, 0, 0) ∧
      Real.sqrt (distSq l f) ≤ 2 / 100000 ∧
      Real.sqrt (distSq f c) = 2 ∧ Real.sqrt (distSq l c) = 2 :=
  CreateCircle_fan_closes 2 8 10 GLState.initial (by norm_num) (by decide) (by norm_num)
    (by decide)

/-! ## C9: the bindings left by the constructor -/

/-- C9 as stated fails already for the first mesh built on a fresh device: after
the constructor the `GL_ARRAY_BUFFER` binding is not `0`. -/
theorem Mesh_new_arrayBuffer_still_bound :
    ¬ ((CreateTriangle GLState.initial : Mesh ℚ × GLState).2.vertexArrayBinding = 0 ∧
       (CreateTriangle GLState.initial : Mesh ℚ × GLState).2.arrayBufferBinding = 0) := by
  intro h
  exact absurd h.2 (by decide)

/-- C9, amended. Constructing a `Mesh` from any vertex and index lists, in any device
state, leaves the vertex-array binding `0` and the element-buffer binding of vertex array
`0` as it was, while `GL_ARRAY_BUFFER` stays bound to the mesh's own vertex buffer, a
non-zero name; the element buffer is bound in the mesh's own vertex array. -/
theorem Mesh_new_bindings {α : Type} (vertices : List (Vertex α)) (indices : List Nat)
    (gl : GLState) :
    (Mesh.new vertices indices gl).2.vertexArrayBinding = 0 ∧
    (Mesh.new vertices indices gl).2.arrayBufferBinding = (Mesh.new vertices indices gl).1.VBO ∧
    (Mesh.new vertices indices gl).1.VBO ≠ 0 ∧
    (Mesh.new vertices indices gl).1.VAO ≠ 0 ∧
    (Mesh.new vertices indices gl).2.elementArrayBinding 0 = gl.elementArrayBinding 0 ∧
    (Mesh.new vertices indices gl).2.elementArrayBinding (Mesh.new vertices indices gl).1.VAO =
      (Mesh.new vertices indices gl).1.EBO := by
  refine ⟨rfl, rfl, Nat.succ_ne_zero _, Nat.succ_ne_zero _, ?_, ?_⟩
  · simp [Mesh.new, setupMesh, glGenVertexArrays, glGenBuffers, glBindVertexArray, glBindBuffer,
      glBufferData, glVertexAttribPointer, glEnableVertexAttribArray]
  · simp [Mesh.new, setupMesh, glGenVertexArrays, glGenBuffers, glBindVertexArray, glBindBuffer,
      glBufferData, glVertexAttribPointer, glEnableVertexAttribArray]

end CPL
